import Mathlib

/-!
Shallow embedding of the phantom-newtype tagged-wrapper core
(src/src/amount.rs, src/src/lib.rs).

The wrapper `Amount<const TF: TraitFlags, Unit, Repr>(Repr, PhantomData<..Unit..>)`
stores one representation value; the tag `Unit` and the capability flag `TF` are
type-level only.  Every trait implementation in amount.rs delegates to the
corresponding operation of `Repr`; a Rust trait bound such as `Repr: AddAssign`
becomes here an explicit function argument (`addAssignR : Repr → Repr → Repr`).
Fallible serde operations are embedded with `Except`.
-/

namespace PhantomNewtype

/-- Modelled from the spec: the capability-flag descriptor (the `trait_flag`
module is not under src/; only its constants are referenced from amount.rs and
lib.rs).  Spec §4.3: a closed, four-valued compile-time enumeration crossing two
independent boolean axes, is-copyable and has-default. -/
structure TraitFlags where
  is_copy : Bool
  is_default : Bool
  deriving DecidableEq

/-- Modelled from the spec: the "copyable + has-default" flag combination
(constant name as referenced in src/src/amount.rs and src/src/lib.rs). -/
def TRAIT_FLAGS_IS_COPY_IS_DEFAULT : TraitFlags := ⟨true, true⟩

/-- Modelled from the spec: the "copyable + no-default" flag combination. -/
def TRAIT_FLAGS_IS_COPY_NO_DEFAULT : TraitFlags := ⟨true, false⟩

/-- Modelled from the spec: the "non-copyable + has-default" flag combination. -/
def TRAIT_FLAGS_NO_COPY_IS_DEFAULT : TraitFlags := ⟨false, true⟩

/-- Modelled from the spec: the "non-copyable + no-default" flag combination. -/
def TRAIT_FLAGS_NO_COPY_NO_DEFAULT : TraitFlags := ⟨false, false⟩

/-- `Amount<const TF: TraitFlags, Unit, Repr>(Repr, PhantomData<AtomicPtr<Unit>>)`
(amount.rs lines 184–189).  The single runtime field is the representation
value; `tf` and `Unit` are phantom type-level parameters. -/
structure Amount (tf : TraitFlags) (Unit : Type) (Repr : Type) : Type where
  repr : Repr

/-- `Amount::new` (amount.rs lines 219–221): `Self(repr, PhantomData)`.
Total, no validation, usable in `const` context. -/
def Amount.new {tf : TraitFlags} {Unit Repr : Type} (r : Repr) :
    Amount tf Unit Repr :=
  ⟨r⟩

/-- `Amount::get` (amount.rs lines 209–211, available when `Repr: Copy`):
returns `self.0`. -/
def Amount.get {tf : TraitFlags} {Unit Repr : Type} (a : Amount tf Unit Repr) :
    Repr :=
  a.repr

/-- `impl From<Repr> for Amount` (amount.rs lines 290–294): `Self::new(repr)`. -/
def Amount.fromRepr {tf : TraitFlags} {Unit Repr : Type} (r : Repr) :
    Amount tf Unit Repr :=
  Amount.new r

/-- `impl<.., Repr: Clone> Clone for Amount` (amount.rs lines 303–307), present
for every `TF` value: `Amount(self.0.clone(), PhantomData)`.  `cloneR` embeds
`Repr::clone`. -/
def Amount.clone {tf : TraitFlags} {Unit Repr : Type} (cloneR : Repr → Repr)
    (a : Amount tf Unit Repr) : Amount tf Unit Repr :=
  ⟨cloneR a.repr⟩

/-- The `TraitFlags` values for which amount.rs provides a `Copy` impl
(lines 309–312): exactly the two `IS_COPY` constants. -/
def amountCopyFlags : List TraitFlags :=
  [TRAIT_FLAGS_IS_COPY_IS_DEFAULT, TRAIT_FLAGS_IS_COPY_NO_DEFAULT]

/-- The `TraitFlags` values for which amount.rs provides a `Default` impl
(lines 314–329): exactly the two `IS_DEFAULT` constants, one per `Copy` axis
value. -/
def amountDefaultFlags : List TraitFlags :=
  [TRAIT_FLAGS_IS_COPY_IS_DEFAULT, TRAIT_FLAGS_NO_COPY_IS_DEFAULT]

/-- The two `Default` impls (amount.rs lines 314–329), each
`Self(Default::default(), PhantomData)`; `dR` embeds `Repr::default()`, and the
membership argument records that the impl only exists for the flags in
`amountDefaultFlags`. -/
def Amount.default {tf : TraitFlags} {Unit Repr : Type}
    (_mem : tf ∈ amountDefaultFlags) (dR : Repr) : Amount tf Unit Repr :=
  Amount.new dR

/-- `impl PartialEq for Amount` (amount.rs lines 332–336): `self.0.eq(&rhs.0)`.
`eqR` embeds `Repr::eq`. -/
def Amount.eq {tf : TraitFlags} {Unit Repr : Type} (eqR : Repr → Repr → Bool)
    (a b : Amount tf Unit Repr) : Bool :=
  eqR a.repr b.repr

/-- `impl PartialOrd for Amount` (amount.rs lines 342–346):
`self.0.partial_cmp(&rhs.0)`.  `pcmpR` embeds `Repr::partial_cmp`. -/
def Amount.pcmp {tf : TraitFlags} {Unit Repr : Type}
    (pcmpR : Repr → Repr → Option Ordering) (a b : Amount tf Unit Repr) :
    Option Ordering :=
  pcmpR a.repr b.repr

/-- `impl Ord for Amount` (amount.rs lines 349–353): `self.0.cmp(&rhs.0)`.
`cmpR` embeds `Repr::cmp`. -/
def Amount.cmp {tf : TraitFlags} {Unit Repr : Type}
    (cmpR : Repr → Repr → Ordering) (a b : Amount tf Unit Repr) : Ordering :=
  cmpR a.repr b.repr

/-- `impl Hash for Amount` (amount.rs lines 356–360): `self.0.hash(state)`.
`hashR` embeds `Repr::hash` as a hasher-state transformer. -/
def Amount.hash {tf : TraitFlags} {Unit Repr : Type} {σ : Type}
    (hashR : Repr → σ → σ) (a : Amount tf Unit Repr) (state : σ) : σ :=
  hashR a.repr state

/-- `impl AddAssign for Amount` (amount.rs lines 375–382):
`self.0 += rhs.get()`.  `addAssignR` embeds `Repr::add_assign`. -/
def Amount.add_assign {tf : TraitFlags} {Unit Repr : Type}
    (addAssignR : Repr → Repr → Repr) (a b : Amount tf Unit Repr) :
    Amount tf Unit Repr :=
  ⟨addAssignR a.repr b.get⟩

/-- `impl Add for Amount` (amount.rs lines 363–372):
`self.add_assign(rhs); self`. -/
def Amount.add {tf : TraitFlags} {Unit Repr : Type}
    (addAssignR : Repr → Repr → Repr) (a b : Amount tf Unit Repr) :
    Amount tf Unit Repr :=
  Amount.add_assign addAssignR a b

/-- `impl SubAssign for Amount` (amount.rs lines 385–392):
`self.0 -= rhs.get()`.  `subAssignR` embeds `Repr::sub_assign`. -/
def Amount.sub_assign {tf : TraitFlags} {Unit Repr : Type}
    (subAssignR : Repr → Repr → Repr) (a b : Amount tf Unit Repr) :
    Amount tf Unit Repr :=
  ⟨subAssignR a.repr b.get⟩

/-- `impl Sub for Amount` (amount.rs lines 395–405):
`self.sub_assign(rhs); self`. -/
def Amount.sub {tf : TraitFlags} {Unit Repr : Type}
    (subAssignR : Repr → Repr → Repr) (a b : Amount tf Unit Repr) :
    Amount tf Unit Repr :=
  Amount.sub_assign subAssignR a b

/-- `impl MulAssign<Repr> for Amount` (amount.rs lines 408–415):
`self.0 *= rhs` — the right-hand side is a bare scalar of type `Repr`.
`mulAssignR` embeds `Repr::mul_assign`. -/
def Amount.mul_assign {tf : TraitFlags} {Unit Repr : Type}
    (mulAssignR : Repr → Repr → Repr) (a : Amount tf Unit Repr) (k : Repr) :
    Amount tf Unit Repr :=
  ⟨mulAssignR a.repr k⟩

/-- `impl Mul<Repr> for Amount` (amount.rs lines 418–428):
`self.mul_assign(rhs); self`. -/
def Amount.mul {tf : TraitFlags} {Unit Repr : Type}
    (mulAssignR : Repr → Repr → Repr) (a : Amount tf Unit Repr) (k : Repr) :
    Amount tf Unit Repr :=
  Amount.mul_assign mulAssignR a k

/-- `impl Div<Self> for Amount` (amount.rs lines 431–440): divisor is another
wrapper of the same tag, `Output = <Repr as Div>::Output` (a bare value of type
`O`, not a wrapper), body `self.0.div(rhs.0)`.  `divR` embeds `Repr::div`. -/
def Amount.div {tf : TraitFlags} {Unit Repr O : Type}
    (divR : Repr → Repr → O) (a b : Amount tf Unit Repr) : O :=
  divR a.repr b.repr

/-- `impl fmt::Display for Amount` (amount.rs lines 453–460):
`write!(f, "{}", self.0)`.  `dspR` embeds `Repr`'s `Display` rendering. -/
def Amount.fmtDisplay {tf : TraitFlags} {Unit Repr : Type}
    (dspR : Repr → String) (a : Amount tf Unit Repr) : String :=
  dspR a.repr

/-- `impl Serialize for Amount` (amount.rs lines 470–474):
`self.0.serialize(serializer)`.  `ser` embeds `Repr::serialize` against a fixed
serializer, producing either serialized output `B` or the serializer's error
`E`. -/
def Amount.serialize {tf : TraitFlags} {Unit Repr E B : Type}
    (ser : Repr → Except E B) (a : Amount tf Unit Repr) : Except E B :=
  ser a.repr

/-- `impl Deserialize for Amount` (amount.rs lines 478–485):
`Repr::deserialize(deserializer).map(Self::new)`.  `de` embeds
`Repr::deserialize` against a fixed deserializer input `B`. -/
def Amount.deserialize {tf : TraitFlags} {Unit Repr E B : Type}
    (de : B → Except E Repr) (bs : B) : Except E (Amount tf Unit Repr) :=
  (de bs).map (fun r => Amount.new r)

/-- The binary arithmetic operation shapes the spec §4.1 discusses for the
wrapper core.  `divScalar` and `mulWrapper` name shapes the spec mentions;
which of the six amount.rs actually implements is recorded in
`amountArithOps`. -/
inductive AmountBinOp where
  | addWrapper
  | subWrapper
  | mulScalar
  | divScalar
  | mulWrapper
  | divWrapper
  deriving DecidableEq

/-- The arithmetic impl blocks of amount.rs (lines 362–440): `Add` and `Sub`
take a same-tag wrapper, `Mul<Repr>`/`MulAssign<Repr>` take a bare scalar, and
`Div<Self>` takes a same-tag wrapper.  No `Div<Repr>` (division by a bare
scalar) impl and no `Mul<Self>` (wrapper-by-wrapper multiplication) impl
exists in the file. -/
def amountArithOps : List AmountBinOp :=
  [AmountBinOp.addWrapper, AmountBinOp.subWrapper, AmountBinOp.mulScalar,
   AmountBinOp.divWrapper]

/-- C7: construction always succeeds with no validation — `Amount.new` is a
total function on every representation value — and unwrapping the constructed
wrapper returns the value unchanged: `get (new v) = v` for every `v`, every
flag and every tag. -/
theorem construct_unwrap_roundtrip (tf : TraitFlags) (Unit Repr : Type)
    (v : Repr) : (Amount.new v : Amount tf Unit Repr).get = v :=
  rfl

/-- C5: `PartialEq`, `PartialOrd` and `Ord` on the wrapper return exactly the
result of the corresponding `Repr` comparison on the two unwrapped values.
The flag `tf` and the tag `Unit` are arbitrary and absent from the right-hand
sides, and the final conjunct states equality-result agreement across two
arbitrary flag/tag instantiations: the tag contributes nothing. -/
theorem compare_delegates (tf tg : TraitFlags) (Unit Unit2 Repr : Type)
    (eqR : Repr → Repr → Bool) (pcmpR : Repr → Repr → Option Ordering)
    (cmpR : Repr → Repr → Ordering) (a b : Amount tf Unit Repr) :
    Amount.eq eqR a b = eqR a.get b.get
      ∧ Amount.pcmp pcmpR a b = pcmpR a.get b.get
      ∧ Amount.cmp cmpR a b = cmpR a.get b.get
      ∧ Amount.eq eqR a b
          = Amount.eq eqR (Amount.new a.get : Amount tg Unit2 Repr)
              (Amount.new b.get) :=
  ⟨rfl, rfl, rfl, rfl⟩

/-- C6: for same-tag, same-flag wrappers, `Add` and `Sub` are defined whenever
`Repr` has the in-place accumulation operations, each yields a new wrapper of
the same tag holding the sum (resp. difference) of the operands'
representations, and `(a + b) - b = a` whenever `Repr`'s own operations
cancel. -/
theorem add_sub_cancel (tf : TraitFlags) (Unit Repr : Type)
    (addAssignR subAssignR : Repr → Repr → Repr)
    (hc : ∀ x y, subAssignR (addAssignR x y) y = x)
    (a b : Amount tf Unit Repr) :
    Amount.add addAssignR a b = Amount.new (addAssignR a.get b.get)
      ∧ Amount.sub subAssignR a b = Amount.new (subAssignR a.get b.get)
      ∧ Amount.sub subAssignR (Amount.add addAssignR a b) b = a := by
  refine ⟨rfl, rfl, ?_⟩
  cases a
  cases b
  simp [Amount.sub, Amount.sub_assign, Amount.add, Amount.add_assign,
    Amount.get, Amount.new, hc]

/-- C6 witness: over `Repr = Nat` with truncated subtraction,
`(new 3 + new 5) - new 5 = new 3`. -/
theorem add_sub_cancel_witness :
    Amount.sub (fun x y => x - y)
        (Amount.add (fun x y => x + y)
          (Amount.new 3 : Amount TRAIT_FLAGS_IS_COPY_IS_DEFAULT Unit Nat)
          (Amount.new 5))
        (Amount.new 5)
      = Amount.new 3 :=
  (add_sub_cancel TRAIT_FLAGS_IS_COPY_IS_DEFAULT Unit Nat
      (fun x y => x + y) (fun x y => x - y)
      (fun x y => Nat.add_sub_cancel x y)
      (Amount.new 3) (Amount.new 5)).2.2

/-- C4: wrapper-by-wrapper division of same-tag, same-flag wrappers is defined
whenever `Repr` has division and yields the bare representation-level quotient
(not a wrapper); in particular `a / a = 1` for nonzero `a`, and
`(a * k) / a = k`, whenever `Repr`'s own division satisfies these. -/
theorem div_wrapper_bare (tf : TraitFlags) (Unit Repr : Type)
    (divR mulAssignR : Repr → Repr → Repr) (z o : Repr)
    (hself : ∀ x, x ≠ z → divR x x = o)
    (hcancel : ∀ x k, x ≠ z → divR (mulAssignR x k) x = k)
    (a b : Amount tf Unit Repr) :
    Amount.div divR a b = divR a.get b.get
      ∧ (a.get ≠ z → Amount.div divR a a = o)
      ∧ (a.get ≠ z → ∀ k, Amount.div divR (Amount.mul mulAssignR a k) a = k) :=
  ⟨rfl, fun h => hself a.get h, fun h k => hcancel a.get k h⟩

/-- C4 witness: over `Repr = Nat`, `new 6 / new 6 = 1` as a bare scalar. -/
theorem div_wrapper_bare_witness :
    Amount.div (fun x y => x / y)
        (Amount.new 6 : Amount TRAIT_FLAGS_IS_COPY_IS_DEFAULT Unit Nat)
        (Amount.new 6)
      = 1 :=
  (div_wrapper_bare TRAIT_FLAGS_IS_COPY_IS_DEFAULT Unit Nat
      (fun x y => x / y) (fun x y => x * y) 0 1
      (fun x hx => Nat.div_self (Nat.pos_of_ne_zero hx))
      (fun x k hx => Nat.mul_div_cancel_left k (Nat.pos_of_ne_zero hx))
      (Amount.new 6) (Amount.new 6)).2.1 (by decide)

/-- C1: the wrapper serializes to exactly the serialized form of its unwrapped
representation value (`serialize w = ser (get w)`), and whenever the
representation's own encode/decode pair round-trips, deserializing the
serialized output yields the original wrapper. -/
theorem serde_roundtrip (tf : TraitFlags) (Unit Repr E B : Type)
    (ser : Repr → Except E B) (de : B → Except E Repr)
    (hround : ∀ r bs, ser r = Except.ok bs → de bs = Except.ok r)
    (w : Amount tf Unit Repr) :
    Amount.serialize ser w = ser w.get
      ∧ ∀ bs, Amount.serialize ser w = Except.ok bs →
          Amount.deserialize de bs = Except.ok w := by
  refine ⟨rfl, fun bs h => ?_⟩
  have hde : de bs = Except.ok w.repr := hround _ _ h
  cases w
  simp [Amount.deserialize, hde, Amount.new, Except.map]

/-- C1 witness: with a concrete encoder `n ↦ [n]` and matching decoder over
`Repr = Nat`, deserializing the serialization of `new 42` returns `new 42`. -/
theorem serde_roundtrip_witness :
    Amount.deserialize
        (fun l : List Nat =>
          match l with
          | [n] => Except.ok n
          | _ => Except.error ())
        [42]
      = Except.ok (Amount.new 42 : Amount TRAIT_FLAGS_IS_COPY_IS_DEFAULT Unit Nat) :=
  (serde_roundtrip TRAIT_FLAGS_IS_COPY_IS_DEFAULT Unit Nat Unit (List Nat)
      (fun n => Except.ok [n])
      (fun l =>
        match l with
        | [n] => Except.ok n
        | _ => Except.error ())
      (fun r bs h => by cases h; rfl)
      (Amount.new 42)).2 [42] rfl

/-- C2: no wrapper operation has a runtime error path.  Construction, unwrap,
equality, ordering, hashing, addition, subtraction, scaling, wrapper-by-wrapper
division and display are total functions that return exactly the delegated
`Repr`-level result on every input; serialization and deserialization fail
exactly when the representation's own encode/decode fails, with the identical
error propagated unchanged, and succeed exactly on the representation's own
successes with no added success case. -/
theorem no_runtime_error_paths (tf : TraitFlags) (Unit Repr E B : Type)
    (σ : Type) (eqR : Repr → Repr → Bool) (cmpR : Repr → Repr → Ordering)
    (pcmpR : Repr → Repr → Option Ordering) (hashR : Repr → σ → σ)
    (addAssignR subAssignR mulAssignR divR : Repr → Repr → Repr)
    (dspR : Repr → String) (ser : Repr → Except E B)
    (de : B → Except E Repr) :
    (∀ v : Repr, (Amount.new v : Amount tf Unit Repr).get = v)
      ∧ (∀ a b : Amount tf Unit Repr,
          Amount.eq eqR a b = eqR a.get b.get
            ∧ Amount.pcmp pcmpR a b = pcmpR a.get b.get
            ∧ Amount.cmp cmpR a b = cmpR a.get b.get
            ∧ Amount.add addAssignR a b = Amount.new (addAssignR a.get b.get)
            ∧ Amount.sub subAssignR a b = Amount.new (subAssignR a.get b.get)
            ∧ Amount.div divR a b = divR a.get b.get)
      ∧ (∀ (a : Amount tf Unit Repr) (k : Repr),
          Amount.mul mulAssignR a k = Amount.new (mulAssignR a.get k))
      ∧ (∀ (a : Amount tf Unit Repr) (st : σ),
          Amount.hash hashR a st = hashR a.get st)
      ∧ (∀ a : Amount tf Unit Repr, Amount.fmtDisplay dspR a = dspR a.get)
      ∧ (∀ (a : Amount tf Unit Repr) (e : E),
          Amount.serialize ser a = Except.error e ↔ ser a.get = Except.error e)
      ∧ (∀ (bs : B) (e : E),
          (Amount.deserialize de bs : Except E (Amount tf Unit Repr))
              = Except.error e
            ↔ de bs = Except.error e)
      ∧ (∀ (bs : B) (r : Repr),
          (Amount.deserialize de bs : Except E (Amount tf Unit Repr))
              = Except.ok (Amount.new r)
            ↔ de bs = Except.ok r) := by
  refine ⟨fun v => rfl,
    fun a b => ⟨rfl, rfl, rfl, rfl, rfl, rfl⟩,
    fun a k => rfl, fun a st => rfl, fun a => rfl,
    fun a e => Iff.rfl, fun bs e => ?_, fun bs r => ?_⟩
  · cases hde : de bs <;>
      simp [Amount.deserialize, hde, Except.map]
  · cases hde : de bs <;>
      simp [Amount.deserialize, hde, Amount.new, Except.map]

/-- C3 counterexample: the claim asserts that division of a wrapper by a bare
scalar `a / k` is defined, but amount.rs implements no `Div<Repr>`: its
arithmetic impl blocks (lines 362–440) contain no scalar-division operation. -/
theorem no_scalar_division : AmountBinOp.divScalar ∉ amountArithOps := by
  decide

/-- C3 (amended): multiplication by a bare scalar `a * k` is defined and
produces a wrapper of the same tag holding the scaled representation of `a`;
division by a bare scalar is not defined (the only division takes a same-tag
wrapper divisor); and wrapper-by-wrapper multiplication is not defined. -/
theorem scalar_scaling (tf : TraitFlags) (Unit Repr : Type)
    (mulAssignR : Repr → Repr → Repr) (a : Amount tf Unit Repr) (k : Repr) :
    Amount.mul mulAssignR a k = Amount.new (mulAssignR a.get k)
      ∧ AmountBinOp.mulScalar ∈ amountArithOps
      ∧ AmountBinOp.divScalar ∉ amountArithOps
      ∧ AmountBinOp.mulWrapper ∉ amountArithOps :=
  ⟨rfl, by decide, by decide, by decide⟩

/-- C9: the `Default` impls of amount.rs exist exactly for the flag values
whose has-default axis is set — independent of the is-copyable axis — and the
default wrapper unwraps to the representation's default value. -/
theorem default_capability (tf : TraitFlags) (Unit Repr : Type)
    (hmem : tf ∈ amountDefaultFlags) (dR : Repr) :
    (∀ c d : Bool, TraitFlags.mk c d ∈ amountDefaultFlags ↔ d = true)
      ∧ (Amount.default hmem dR : Amount tf Unit Repr).get = dR :=
  ⟨by decide, rfl⟩

/-- C9 witness: under the non-copyable has-default flag, the default wrapper
over `Repr = Nat` with default value `0` unwraps to `0`. -/
theorem default_capability_witness :
    TRAIT_FLAGS_NO_COPY_IS_DEFAULT ∈ amountDefaultFlags
      ∧ (Amount.default (by decide)
          (0 : Nat) : Amount TRAIT_FLAGS_NO_COPY_IS_DEFAULT Unit Nat).get = 0 :=
  ⟨by decide,
    (default_capability TRAIT_FLAGS_NO_COPY_IS_DEFAULT Unit Nat (by decide)
        (0 : Nat)).2⟩

/-- C10: `Clone` is implemented for every capability-flag value — the impl at
amount.rs line 303 is generic over `TF`, so it covers the non-copyable flags —
producing a same-tag wrapper holding the cloned representation; `clone w` is
equal to `w` whenever the representation's own clone preserves equality. -/
theorem clone_every_flag (tf : TraitFlags) (Unit Repr : Type)
    (cloneR : Repr → Repr) (eqR : Repr → Repr → Bool)
    (hpres : ∀ x, eqR (cloneR x) x = true) (a : Amount tf Unit Repr) :
    Amount.clone cloneR a = Amount.new (cloneR a.get)
      ∧ Amount.eq eqR (Amount.clone cloneR a) a = true :=
  ⟨rfl, hpres a.repr⟩

/-- C10 witness: under the non-copyable no-default flag over `Repr = Nat`,
cloning `new 7` yields a wrapper equal to `new 7`. -/
theorem clone_every_flag_witness :
    Amount.eq (fun x y => x == y)
        (Amount.clone (fun x => x)
          (Amount.new 7 : Amount TRAIT_FLAGS_NO_COPY_NO_DEFAULT Unit Nat))
        (Amount.new 7)
      = true :=
  (clone_every_flag TRAIT_FLAGS_NO_COPY_NO_DEFAULT Unit Nat
      (fun x => x) (fun x y => x == y) (fun x => by simp)
      (Amount.new 7)).2

end PhantomNewtype
